import Mathlib

/-!
Verification development for the media-server repository.

The embedded component is `src/mpv_controller.py` (class `MPVController`),
the player session controller the specification is about.  Python values
read off the IPC channel are modelled by `MVal`; each call to the private
method `__send_recv` is driven by an environment oracle `ChanOutcome`
describing what the channel does on that call (socket file missing,
connection refused, unparsable reply, or a parsed JSON reply).  Process
lifecycle state lives in `World` (which processes the controller spawned
are alive, whether the socket file exists, the argv each spawn used), and
the controller object state in `Ctrl` (fields `socket_path` and `proc`).

Exceptions are modelled with `Except` for the channel-level helpers and,
for the stateful lifecycle methods `start`/`stop` (whose partial effects
before a raise matter), with a `StepResult` carrying the final state plus
an optional propagated exception.  Machine timing (the 50 x 100ms socket
poll, the 3s exit wait) is abstracted to its outcome: whether the socket
appeared within the window, and that after `wait`/`kill` the process is
dead either way.
-/

namespace MediaServer

/-- A loosely typed value as carried in mpv JSON IPC replies.  Python
`None` / JSON `null` is `vNull`; numbers are modelled as integers. -/
inductive MVal where
  | vNull
  | vBool (b : Bool)
  | vNum (n : Int)
  | vStr (s : String)
deriving DecidableEq

/-- Python truthiness, as used by `x or d`, `bool(x)` and `if x:`. -/
def pyTruthy : MVal → Bool
  | .vNull => false
  | .vBool b => b
  | .vNum n => n != 0
  | .vStr s => s != ""

/-- Python `x or d`. -/
def pyOr (x d : MVal) : MVal := if pyTruthy x then x else d

/-- Python `int(x)`; `none` models the `TypeError`/`ValueError` raised on
`None` or a non-numeric string. -/
def pyInt : MVal → Option Int
  | .vBool b => some (if b then 1 else 0)
  | .vNum n => some n
  | .vStr s => s.toInt?
  | .vNull => none

/-- `os.path.basename` on POSIX: the part after the last slash, computed
as the longest slash-free suffix. -/
def pyBasename (s : String) : String :=
  String.mk ((s.data.reverse.takeWhile (fun c => c ≠ '/')).reverse)

/-- The exceptions the controller code can raise.
`socketAbsent` is the `RuntimeError("IPC socket absent")` raised by
`__send_recv` when the socket file is missing; `connectionRefused` the
`OSError` from `socket.connect`; `badJson` the `json.loads` failure on an
unparsable reply; `launchTimeout` the `RuntimeError` raised by `start`
after the poll loop; `typeError` the `TypeError`/`ValueError` from
`os.path.basename`/`int` on ill-typed property data. -/
inductive Err where
  | socketAbsent
  | connectionRefused
  | badJson
  | launchTimeout
  | typeError
deriving DecidableEq

/-- Environment oracle for one `__send_recv` call: what the socket file and
the peer do at that moment.  `reply d` is a successfully parsed JSON
response whose `"data"` field is `d` (`none` when the key is absent,
which is also how a JSON `null` surfaces through `dict.get`). -/
inductive ChanOutcome where
  | absent
  | refused
  | badJson
  | reply (d : Option MVal)
deriving DecidableEq

/-- `MPVController.__send_recv`: raises when the socket file does not
exist, when the connection fails or when the reply is not JSON; otherwise
returns the parsed response, modelled by its `"data"` field (the only
field the class ever reads). -/
def sendRecv : ChanOutcome → Except Err (Option MVal)
  | .absent => .error .socketAbsent
  | .refused => .error .connectionRefused
  | .badJson => .error .badJson
  | .reply d => .ok d

/-- `MPVController.command`: send, parse the reply, discard it. -/
def commandOp (o : ChanOutcome) : Except Err Unit := do
  let _ ← sendRecv o
  pure ()

/-- `resp.get("data")` seen as an `MVal`: an absent key is Python `None`. -/
def dataOf (d : Option MVal) : MVal := d.getD .vNull

/-- `MPVController.get`: `__send_recv` then `resp.get("data")`. -/
def getProp (o : ChanOutcome) : Except Err MVal := do
  let d ← sendRecv o
  pure (dataOf d)

/-- `MPVController.show_text`: a `command` whose `except RuntimeError:
pass` swallows exactly the socket-absent raise; a connection error or a
bad reply still propagates. -/
def showTextOp (o : ChanOutcome) : Except Err Unit :=
  match commandOp o with
  | .error .socketAbsent => .ok ()
  | r => r

/-- `MPVController.pause`: toggle, query the resulting pause state, show a
notification.  Returns the queried pause state (the boolean that selects
the notification text). -/
def pauseOp (oCycle oGet oShow : ChanOutcome) : Except Err Bool := do
  let _ ← commandOp oCycle
  let p ← getProp oGet
  let paused := pyTruthy p
  let _ ← showTextOp oShow
  pure paused

/-- `MPVController.seek`: relative seek then a notification built from
`delta` alone. -/
def seekOp (delta : Int) (oSeek oShow : ChanOutcome) : Except Err Unit := do
  let _ := delta
  let _ ← commandOp oSeek
  showTextOp oShow

/-- `MPVController.volume`: relative volume add, query the resulting
volume, coerce with `int(... or 0)`, show it.  Returns the integer shown
in the notification text. -/
def volumeOp (delta : Int) (oAdd oGet oShow : ChanOutcome) : Except Err Int := do
  let _ := delta
  let _ ← commandOp oAdd
  let v ← getProp oGet
  match pyInt (pyOr v (.vNum 0)) with
  | none => .error .typeError
  | some vol => do
    let _ ← showTextOp oShow
    pure vol

/-- Controller object state: the fields of `MPVController`.  `proc` is the
tracked process handle, identified by its pid. -/
structure Ctrl where
  socketPath : String
  proc : Option Nat
deriving DecidableEq

/-- External state the controller interacts with: whether the socket file
exists, which controller-spawned processes are currently alive, the next
fresh pid, and a log of every spawn with its argv. -/
structure World where
  socketExists : Bool
  alive : List Nat
  nextPid : Nat
  spawned : List (Nat × List String)
deriving DecidableEq

/-- The module constant `MPV_SOCKET`. -/
def MPV_SOCKET : String := "/tmp/mpv-socket"

/-- The module constant `MPV_PARAMS` of `src/mpv_controller.py`. -/
def MPV_PARAMS : List String :=
  ["--audio-device=alsa/hdmi:CARD=PCH,DEV=0", "--fullscreen", "--sid 1", "--no-terminal"]

/-- The idle flag of the divergent controller variant in `src/main.py`
(commented there as keeping the player running after the file ends);
`src/mpv_controller.py` does not pass it. -/
def IDLE_PARAM : String := "--idle=yes"

/-- The argv `MPVController.start` passes to `subprocess.Popen`. -/
def buildCmd (socketPath media : String) : List String :=
  "mpv" :: ("--input-ipc-server=" ++ socketPath) :: (MPV_PARAMS ++ [media])

/-- The `"file"` field computation of `status`:
`os.path.basename(self.get("path") or "")`; `none` models the `TypeError`
`basename` raises on a non-string. -/
def statusFile (v : MVal) : Option String :=
  match pyOr v (.vStr "") with
  | .vStr s => some (pyBasename s)
  | _ => none

/-- The `"volume"` field computation of `status` and of `volume`:
`int(self.get("volume") or 0)`. -/
def statusVolume (v : MVal) : Option Int := pyInt (pyOr v (.vNum 0))

/-- The JSON body `status` returns: either `{"running": False}` with no
further fields, or the full snapshot with `"running": True`. -/
inductive StatusResp where
  | notRunning
  | snapshot (file : String) (paused : Bool) (volume : Int)
deriving DecidableEq

/-- `MPVController.status`.  The source tests
`self.proc is None or self.proc.poll() is None`; `poll()` returns `None`
exactly while the process is still running, so the early return fires for
an untracked or still-running process and the snapshot branch runs for a
tracked process that has exited.  Field expressions are evaluated in dict
order: path query, basename, pause query, volume query, coercion. -/
def statusOp (st : Ctrl) (w : World) (oPath oPause oVol : ChanOutcome) :
    Except Err StatusResp :=
  match st.proc with
  | none => .ok .notRunning
  | some pid =>
    if pid ∈ w.alive then .ok .notRunning
    else do
      let pv ← getProp oPath
      match statusFile pv with
      | none => .error .typeError
      | some f => do
        let qv ← getProp oPause
        let paused := pyTruthy qv
        let rv ← getProp oVol
        match statusVolume rv with
        | none => .error .typeError
        | some vol => .ok (.snapshot f paused vol)

/-- A session is active when a process is tracked and still alive —
the condition `self.proc and self.proc.poll() is None` that guards the
quit/wait/kill block of `stop`. -/
def sessionActive (st : Ctrl) (w : World) : Bool :=
  match st.proc with
  | some pid => decide (pid ∈ w.alive)
  | none => false

/-- Outcome of one stateful lifecycle call: the controller and world
state at return (or at the point the exception left the method) plus the
propagated exception, if any. -/
structure StepResult where
  ctrl : Ctrl
  world : World
  err : Option Err
deriving DecidableEq

/-- `MPVController.stop`.  When a tracked process is alive, `quit` is sent
through `self.command` with no exception handling, so a channel failure
propagates before `self.proc = None` and the socket cleanup run; on
success, `wait(timeout=3)` / `kill()` leave the process dead either way,
the handle is cleared and `__clean_socket` removes the socket file. -/
def stopImpl (st : Ctrl) (w : World) (oQuit : ChanOutcome) : StepResult :=
  match st.proc with
  | some pid =>
    if pid ∈ w.alive then
      match sendRecv oQuit with
      | .error e => ⟨st, w, some e⟩
      | .ok _ =>
        ⟨⟨st.socketPath, none⟩,
         ⟨false, w.alive.erase pid, w.nextPid, w.spawned⟩, none⟩
    else ⟨⟨st.socketPath, none⟩, ⟨false, w.alive, w.nextPid, w.spawned⟩, none⟩
  | none => ⟨⟨st.socketPath, none⟩, ⟨false, w.alive, w.nextPid, w.spawned⟩, none⟩

/-- `MPVController.start`.  Runs `self.stop()` (a raise there propagates),
`__clean_socket`, launches `mpv` with `buildCmd`, then polls for the
socket file; `socketAppears` says whether it appeared within the bounded
50 x 100ms window.  On timeout the `RuntimeError` propagates with
`self.proc` still holding the freshly launched process. -/
def startImpl (st : Ctrl) (w : World) (media : String) (oQuit : ChanOutcome)
    (socketAppears : Bool) : StepResult :=
  match stopImpl st w oQuit with
  | ⟨st1, w1, some e⟩ => ⟨st1, w1, some e⟩
  | ⟨st1, w1, none⟩ =>
    let pid := w1.nextPid
    let st2 : Ctrl := ⟨st1.socketPath, some pid⟩
    let w2 : World :=
      ⟨socketAppears, pid :: w1.alive, pid + 1,
       (pid, buildCmd st1.socketPath media) :: w1.spawned⟩
    if socketAppears then ⟨st2, w2, none⟩ else ⟨st2, w2, some .launchTimeout⟩

/-- Well-formedness of a controller/world pair: the alive list has no
duplicates, only the tracked process can be alive, and all alive pids are
below the fresh-pid counter. -/
def Wf (st : Ctrl) (w : World) : Prop :=
  w.alive.Nodup ∧ (∀ p ∈ w.alive, st.proc = some p) ∧ ∀ p ∈ w.alive, p < w.nextPid

/-- Convenient initial controller, as built by `MPVController()`. -/
def ctrl0 : Ctrl := ⟨MPV_SOCKET, none⟩

/-- Fresh world: no socket file, nothing alive, nothing spawned. -/
def world0 : World := ⟨false, [], 0, []⟩

/-! ## Helper lemmas -/

theorem alive_shape (st : Ctrl) (w : World) (h : Wf st w) :
    w.alive = [] ∨ ∃ pid, st.proc = some pid ∧ w.alive = [pid] := by
  obtain ⟨hnd, hall, hlt⟩ := h
  cases ha : w.alive with
  | nil => exact Or.inl rfl
  | cons a l =>
    refine Or.inr ⟨a, hall a (ha ▸ List.mem_cons_self a l), ?_⟩
    cases l with
    | nil => rfl
    | cons b m =>
      exfalso
      have hb : st.proc = some b := hall b (ha ▸ by simp)
      have haa : st.proc = some a := hall a (ha ▸ by simp)
      have hab : a = b := by
        rw [haa] at hb
        exact Option.some.inj hb
      rw [ha] at hnd
      exact (List.nodup_cons.mp hnd).1 (hab ▸ List.mem_cons_self b m)

theorem stop_preserve (st : Ctrl) (w : World) (o : ChanOutcome) :
    (stopImpl st w o).ctrl.socketPath = st.socketPath ∧
    (stopImpl st w o).world.nextPid = w.nextPid ∧
    (stopImpl st w o).world.spawned = w.spawned := by
  unfold stopImpl
  cases st.proc with
  | none => exact ⟨rfl, rfl, rfl⟩
  | some pid =>
    by_cases hm : pid ∈ w.alive
    · cases ho : sendRecv o with
      | error e => simp [hm, ho]
      | ok d => simp [hm, ho]
    · simp [hm]

theorem stop_ok (st : Ctrl) (w : World) (o : ChanOutcome) (hWf : Wf st w)
    (h : (stopImpl st w o).err = none) :
    stopImpl st w o =
      ⟨⟨st.socketPath, none⟩, ⟨false, [], w.nextPid, w.spawned⟩, none⟩ := by
  rcases alive_shape st w hWf with hnil | ⟨pid, hp, hone⟩
  · cases hproc : st.proc with
    | none => simp [stopImpl, hproc, hnil]
    | some q => simp [stopImpl, hproc, hnil]
  · cases ho : sendRecv o with
    | error e =>
      exfalso
      rw [stopImpl, hp] at h
      simp only [hone, List.mem_singleton, if_true] at h
      rw [ho] at h
      simp at h
    | ok d =>
      rw [stopImpl, hp]
      simp only [hone, List.mem_singleton, if_true]
      rw [ho]
      simp [List.erase_cons_head]

theorem start_ok (st : Ctrl) (w : World) (m : String) (o : ChanOutcome) (b : Bool)
    (hWf : Wf st w) (h : (startImpl st w m o b).err = none) :
    startImpl st w m o b =
      ⟨⟨st.socketPath, some w.nextPid⟩,
       ⟨true, [w.nextPid], w.nextPid + 1,
        (w.nextPid, buildCmd st.socketPath m) :: w.spawned⟩, none⟩ := by
  have hs : (stopImpl st w o).err = none := by
    cases he : (stopImpl st w o).err with
    | none => rfl
    | some e =>
      exfalso
      rw [startImpl] at h
      rcases hstop : stopImpl st w o with ⟨st1, w1, e1⟩
      rw [hstop] at he
      simp only at he
      rw [hstop, he] at h
      simp at h
  have hb : b = true := by
    cases b with
    | true => rfl
    | false =>
      exfalso
      rw [startImpl, stop_ok st w o hWf hs] at h
      simp at h
  subst hb
  rw [startImpl, stop_ok st w o hWf hs]
  rfl

theorem wf_after_start (st : Ctrl) (w : World) (m : String) (o : ChanOutcome)
    (b : Bool) (hWf : Wf st w) (h : (startImpl st w m o b).err = none) :
    Wf (startImpl st w m o b).ctrl (startImpl st w m o b).world := by
  rw [start_ok st w m o b hWf h]
  refine ⟨List.nodup_singleton _, ?_, ?_⟩
  · intro p hp
    simp only [List.mem_singleton] at hp
    simp [hp]
  · intro p hp
    simp only [List.mem_singleton] at hp
    simp [hp]

theorem getProp_reply (d : Option MVal) : getProp (.reply d) = .ok (dataOf d) := rfl

theorem exceptBind_ok {α β : Type} (a : α) (f : α → Except Err β) :
    (Except.ok a : Except Err α) >>= f = f a := rfl

/-! ## Claim theorems -/

/-- Claim C1, evaluated at the failing input: with a tracked process that
is still alive — the state right after a successful start of
/media/movie.mkv — status returns the bare running-false body instead of
the claimed full snapshot, and with a tracked process that has exited it
builds the full snapshot instead of the claimed running-false body: the
liveness test of status is inverted relative to the claim. -/
theorem c1_status_inverted_eval :
    (statusOp ⟨MPV_SOCKET, some 0⟩
       ⟨true, [0], 1, [(0, buildCmd MPV_SOCKET "/media/movie.mkv")]⟩
       (.reply (some (.vStr "/media/movie.mkv"))) (.reply (some (.vBool false)))
       (.reply (some (.vNum 100))) = .ok .notRunning)
    ∧ (statusOp ⟨MPV_SOCKET, some 0⟩
       ⟨false, [], 1, [(0, buildCmd MPV_SOCKET "/media/movie.mkv")]⟩
       (.reply (some (.vStr "/media/movie.mkv"))) (.reply (some (.vBool false)))
       (.reply (some (.vNum 100))) = .ok (.snapshot "movie.mkv" false 100)) :=
  ⟨rfl, rfl⟩

/-- Claim C2 counterexample: a controller state (tracked pid 0, exited)
and a channel behaviour (socket file gone at the path query) on which
status propagates an exception instead of degrading the field, refuting
that status never raises for every state and channel behaviour. -/
theorem c2_status_raises_cex :
    statusOp ⟨MPV_SOCKET, some 0⟩ ⟨false, [], 1, []⟩ .absent (.reply none) (.reply none)
      = .error .socketAbsent := rfl

/-- Claim C2, amended: in the snapshot branch status does not raise
provided every property query channel call delivers a parsed reply whose
data the coercions accept — null or missing data degrades to the typed
defaults; and the running-false branch never consults the channel and
never raises.  A channel-level query failure, by contrast, propagates. -/
theorem c2_status_degrades_amended (st : Ctrl) (w : World) (pid : Nat)
    (p q r : Option MVal) (f : String) (vol : Int)
    (hproc : st.proc = some pid) (hdead : pid ∉ w.alive)
    (hf : statusFile (dataOf p) = some f) (hv : statusVolume (dataOf r) = some vol) :
    statusOp st w (.reply p) (.reply q) (.reply r)
      = .ok (.snapshot f (pyTruthy (dataOf q)) vol)
    ∧ ∀ (st2 : Ctrl) (w2 : World) (o1 o2 o3 : ChanOutcome),
        sessionActive st2 w2 = true ∨ st2.proc = none →
          statusOp st2 w2 o1 o2 o3 = .ok .notRunning := by
  constructor
  · simp [statusOp, hproc, hdead, getProp_reply, exceptBind_ok, hf, hv]
  · intro st2 w2 o1 o2 o3 h
    rcases h with hs | hn
    · unfold sessionActive at hs
      cases hp2 : st2.proc with
      | none => simp [statusOp, hp2]
      | some pid2 =>
        rw [hp2] at hs
        simp only [decide_eq_true_eq] at hs
        simp [statusOp, hp2, hs]
    · simp [statusOp, hn]

/-- Witness for the amended C2: all three queries answer with a reply
missing its data field, and status returns the fully degraded snapshot. -/
theorem c2_status_degrades_amended_witness :
    statusOp ⟨MPV_SOCKET, some 0⟩ ⟨false, [], 1, []⟩
        (.reply none) (.reply none) (.reply none) = .ok (.snapshot "" false 0) :=
  (c2_status_degrades_amended ⟨MPV_SOCKET, some 0⟩ ⟨false, [], 1, []⟩ 0
    none none none "" 0 rfl (by decide) rfl rfl).1

/-- Claim C9: when the socket file is missing, the primary command of
pause, seek and volume raises the socket-absent channel error; the
follow-up property query of pause and volume is equally intolerant; only
the trailing show-text notification swallows that failure. -/
theorem c9_primary_raises :
    (∀ o2 o3, pauseOp .absent o2 o3 = .error .socketAbsent)
    ∧ (∀ (d : Int) o2, seekOp d .absent o2 = .error .socketAbsent)
    ∧ (∀ (d : Int) o2 o3, volumeOp d .absent o2 o3 = .error .socketAbsent)
    ∧ (∀ o3, pauseOp (.reply none) .absent o3 = .error .socketAbsent)
    ∧ (∀ (d : Int) o3, volumeOp d (.reply none) .absent o3 = .error .socketAbsent)
    ∧ pauseOp (.reply none) (.reply none) .absent = .ok false
    ∧ (∀ d : Int, seekOp d (.reply none) .absent = .ok ())
    ∧ (∀ d : Int, volumeOp d (.reply none) (.reply none) .absent = .ok 0) :=
  ⟨fun _ _ => rfl, fun _ _ => rfl, fun _ _ _ => rfl, fun _ => rfl,
   fun _ _ => rfl, rfl, fun _ => rfl, fun _ => rfl⟩

/-- Claim C10: a parsed reply with no data field yields Python None from
get rather than a failure, and the callers coerce that to typed defaults:
status degrades file to the empty string, paused to false and volume to
zero, and the volume notification shows zero. -/
theorem c10_null_data_defaults :
    getProp (.reply none) = .ok .vNull
    ∧ statusOp ⟨MPV_SOCKET, some 1⟩ ⟨false, [], 2, []⟩
        (.reply none) (.reply none) (.reply none) = .ok (.snapshot "" false 0)
    ∧ ∀ d : Int, volumeOp d (.reply none) (.reply none) (.reply none) = .ok 0 :=
  ⟨rfl, rfl, fun _ => rfl⟩

theorem stop_err_none_of_ok (st : Ctrl) (w : World) (o : ChanOutcome)
    (d : Option MVal) (ho : sendRecv o = .ok d) : (stopImpl st w o).err = none := by
  unfold stopImpl
  cases st.proc with
  | none => rfl
  | some pid =>
    by_cases hm : pid ∈ w.alive
    · simp [hm, ho]
    · simp [hm]

/-- Claim C3 counterexample: a tracked live process with the socket file
missing — the quit command raises and stop propagates the exception with
the handle still tracked, refuting that stop always completes and never
raises for every state of the socket file and external process. -/
theorem c3_stop_raises_cex :
    stopImpl ⟨MPV_SOCKET, some 0⟩ ⟨false, [0], 1, []⟩ .absent
      = ⟨⟨MPV_SOCKET, some 0⟩, ⟨false, [0], 1, []⟩, some .socketAbsent⟩ := rfl

/-- Claim C3, amended: stop completes without error when no session is
active, and when the quit channel call succeeds — the process is then dead
afterwards, the handle cleared and the socket file removed; but when a
session is active and the quit channel call fails, the exception
propagates out of stop and the controller and world are left unchanged. -/
theorem c3_stop_amended (st : Ctrl) (w : World) (o : ChanOutcome) :
    (sessionActive st w = false → (stopImpl st w o).err = none)
    ∧ (Wf st w → ∀ d, sendRecv o = .ok d →
        stopImpl st w o
          = ⟨⟨st.socketPath, none⟩, ⟨false, [], w.nextPid, w.spawned⟩, none⟩)
    ∧ (∀ pid e, st.proc = some pid → pid ∈ w.alive → sendRecv o = .error e →
        stopImpl st w o = ⟨st, w, some e⟩) := by
  refine ⟨?_, ?_, ?_⟩
  · intro h
    unfold sessionActive at h
    cases hp : st.proc with
    | none => unfold stopImpl; rw [hp]
    | some pid =>
      rw [hp] at h
      have hm : pid ∉ w.alive := of_decide_eq_false h
      unfold stopImpl
      rw [hp]
      simp [hm]
  · intro hWf d ho
    exact stop_ok st w o hWf (stop_err_none_of_ok st w o d ho)
  · intro pid e hp hm ho
    unfold stopImpl
    rw [hp]
    simp [hm, ho]

/-- Witness for the amended C3: an active session whose quit command is
answered; stop clears the handle, kills the process and removes the
socket. -/
theorem c3_stop_amended_witness :
    stopImpl ⟨MPV_SOCKET, some 0⟩ ⟨true, [0], 1, []⟩ (.reply none)
      = ⟨⟨MPV_SOCKET, none⟩, ⟨false, [], 1, []⟩, none⟩ :=
  (c3_stop_amended ⟨MPV_SOCKET, some 0⟩ ⟨true, [0], 1, []⟩ (.reply none)).2.1
    ⟨List.nodup_singleton 0, by simp, by simp⟩ none rfl

/-- Claim C4 counterexample: from a fresh controller, a start whose socket
never appears raises the launch-timeout error with the new process handle
still tracked — the controller is not left in the idle state. -/
theorem c4_start_timeout_cex :
    (startImpl ctrl0 world0 "/media/movie.mkv" (.reply none) false).err
        = some .launchTimeout
    ∧ (startImpl ctrl0 world0 "/media/movie.mkv" (.reply none) false).ctrl.proc
        = some 0 := ⟨rfl, rfl⟩

/-- Claim C4, amended: when the socket never appears within the polling
window, start raises the launch-timeout error, but the controller is not
left idle: the freshly launched process handle stays tracked, so
subsequent calls do not behave as from a fresh controller (a later stop
or start must first tear the dangling process down). -/
theorem c4_start_timeout_amended (st : Ctrl) (w : World) (media : String)
    (o : ChanOutcome) (h : (stopImpl st w o).err = none) :
    (startImpl st w media o false).err = some .launchTimeout
    ∧ (startImpl st w media o false).ctrl.proc = some w.nextPid
    ∧ (startImpl st w media o false).ctrl.proc ≠ none
    ∧ (startImpl st w media o false).world.socketExists = false := by
  have hpres := stop_preserve st w o
  rcases hstop : stopImpl st w o with ⟨st1, w1, e1⟩
  rw [hstop] at h hpres
  simp only at h hpres
  subst h
  unfold startImpl
  rw [hstop]
  refine ⟨?_, ?_, ?_, ?_⟩ <;> simp [hpres.2.1]

/-- Witness for the amended C4: the fresh-controller instance. -/
theorem c4_start_timeout_amended_witness :
    (startImpl ctrl0 world0 "/media/a.mkv" (.reply none) false).err
        = some .launchTimeout
    ∧ (startImpl ctrl0 world0 "/media/a.mkv" (.reply none) false).ctrl.proc
        = some world0.nextPid
    ∧ (startImpl ctrl0 world0 "/media/a.mkv" (.reply none) false).ctrl.proc ≠ none
    ∧ (startImpl ctrl0 world0 "/media/a.mkv" (.reply none) false).world.socketExists
        = false :=
  c4_start_timeout_amended ctrl0 world0 "/media/a.mkv" (.reply none) rfl

/-- Claim C5: two successful starts with no intervening stop leave exactly
one live controller-spawned process — the one launched for B, with B as
the final argv element of its recorded spawn — and it is the tracked one;
after the first start exactly one process was live as well. -/
theorem c5_two_starts (st : Ctrl) (w : World) (A B : String)
    (o1 o2 : ChanOutcome) (b1 b2 : Bool) (hWf : Wf st w)
    (h1 : (startImpl st w A o1 b1).err = none)
    (h2 : (startImpl (startImpl st w A o1 b1).ctrl (startImpl st w A o1 b1).world
            B o2 b2).err = none) :
    (startImpl (startImpl st w A o1 b1).ctrl (startImpl st w A o1 b1).world
        B o2 b2).world.alive = [w.nextPid + 1]
    ∧ (startImpl (startImpl st w A o1 b1).ctrl (startImpl st w A o1 b1).world
        B o2 b2).ctrl.proc = some (w.nextPid + 1)
    ∧ (w.nextPid + 1, buildCmd st.socketPath B)
        ∈ (startImpl (startImpl st w A o1 b1).ctrl (startImpl st w A o1 b1).world
            B o2 b2).world.spawned
    ∧ (startImpl st w A o1 b1).world.alive = [w.nextPid] := by
  have e1 := start_ok st w A o1 b1 hWf h1
  have hWf1 := wf_after_start st w A o1 b1 hWf h1
  rw [e1] at h2 hWf1 ⊢
  have e2 := start_ok _ _ B o2 b2 hWf1 h2
  rw [e2]
  exact ⟨rfl, rfl, List.mem_cons_self _ _, rfl⟩

/-- Witness for C5: both starts succeed from a fresh controller; pid 1
(for B) is the only live process afterwards. -/
theorem c5_two_starts_witness :
    (startImpl (startImpl ctrl0 world0 "/media/a.mkv" (.reply none) true).ctrl
        (startImpl ctrl0 world0 "/media/a.mkv" (.reply none) true).world
        "/media/b.mkv" (.reply none) true).world.alive = [world0.nextPid + 1]
    ∧ (startImpl (startImpl ctrl0 world0 "/media/a.mkv" (.reply none) true).ctrl
        (startImpl ctrl0 world0 "/media/a.mkv" (.reply none) true).world
        "/media/b.mkv" (.reply none) true).ctrl.proc = some (world0.nextPid + 1)
    ∧ (world0.nextPid + 1, buildCmd ctrl0.socketPath "/media/b.mkv")
        ∈ (startImpl (startImpl ctrl0 world0 "/media/a.mkv" (.reply none) true).ctrl
            (startImpl ctrl0 world0 "/media/a.mkv" (.reply none) true).world
            "/media/b.mkv" (.reply none) true).world.spawned
    ∧ (startImpl ctrl0 world0 "/media/a.mkv" (.reply none) true).world.alive
        = [world0.nextPid] :=
  c5_two_starts ctrl0 world0 "/media/a.mkv" "/media/b.mkv" (.reply none) (.reply none)
    true true ⟨List.nodup_nil, by simp [world0], by simp [world0]⟩ rfl rfl

/-- Claim C6: when no session is active, stop never fails, leaves the
session inactive with no tracked process, leaves an already-empty handle
untouched, and a repeated stop is a strict no-op: it returns the same
controller and world unchanged with no error. -/
theorem c6_stop_idempotent (st : Ctrl) (w : World) (o o2 : ChanOutcome)
    (h : sessionActive st w = false) :
    (stopImpl st w o).err = none
    ∧ (stopImpl st w o).ctrl.proc = none
    ∧ sessionActive (stopImpl st w o).ctrl (stopImpl st w o).world = false
    ∧ (st.proc = none → (stopImpl st w o).ctrl = st)
    ∧ stopImpl (stopImpl st w o).ctrl (stopImpl st w o).world o2
        = ⟨(stopImpl st w o).ctrl, (stopImpl st w o).world, none⟩ := by
  unfold sessionActive at h
  cases hp : st.proc with
  | none =>
    have hres : stopImpl st w o
        = ⟨⟨st.socketPath, none⟩, ⟨false, w.alive, w.nextPid, w.spawned⟩, none⟩ := by
      unfold stopImpl
      rw [hp]
    rw [hres]
    refine ⟨rfl, rfl, rfl, ?_, rfl⟩
    intro h0
    simp only
    rw [← hp]
  | some pid =>
    rw [hp] at h
    have hm : pid ∉ w.alive := of_decide_eq_false h
    have hres : stopImpl st w o
        = ⟨⟨st.socketPath, none⟩, ⟨false, w.alive, w.nextPid, w.spawned⟩, none⟩ := by
      unfold stopImpl
      rw [hp]
      simp [hm]
    rw [hres]
    refine ⟨rfl, rfl, rfl, ?_, rfl⟩
    intro h0
    simp [hp] at h0

/-- Witness for C6: a never-started controller with a stale socket file;
stop succeeds and a second stop is the identity. -/
theorem c6_stop_idempotent_witness :
    (stopImpl ctrl0 ⟨true, [], 0, []⟩ (.reply none)).err = none
    ∧ (stopImpl ctrl0 ⟨true, [], 0, []⟩ (.reply none)).ctrl.proc = none
    ∧ sessionActive (stopImpl ctrl0 ⟨true, [], 0, []⟩ (.reply none)).ctrl
        (stopImpl ctrl0 ⟨true, [], 0, []⟩ (.reply none)).world = false
    ∧ (ctrl0.proc = none → (stopImpl ctrl0 ⟨true, [], 0, []⟩ (.reply none)).ctrl = ctrl0)
    ∧ stopImpl (stopImpl ctrl0 ⟨true, [], 0, []⟩ (.reply none)).ctrl
        (stopImpl ctrl0 ⟨true, [], 0, []⟩ (.reply none)).world (.reply none)
        = ⟨(stopImpl ctrl0 ⟨true, [], 0, []⟩ (.reply none)).ctrl,
           (stopImpl ctrl0 ⟨true, [], 0, []⟩ (.reply none)).world, none⟩ :=
  c6_stop_idempotent ctrl0 ⟨true, [], 0, []⟩ (.reply none) (.reply none) rfl

/-- Claim C7 counterexample: the argv built for a start contains no
keep-running-when-idle option — the fixed parameters are audio device,
fullscreen, subtitle track and no-terminal — refuting the claimed
parameter set. -/
theorem c7_no_idle_flag_cex :
    buildCmd MPV_SOCKET "/media/movie.mkv" =
      ["mpv", "--input-ipc-server=/tmp/mpv-socket",
       "--audio-device=alsa/hdmi:CARD=PCH,DEV=0", "--fullscreen", "--sid 1",
       "--no-terminal", "/media/movie.mkv"]
    ∧ IDLE_PARAM ∉ buildCmd MPV_SOCKET "/media/movie.mkv" := by
  refine ⟨rfl, ?_⟩
  decide

/-- Claim C7, amended: every start launches the player with an argument
naming the fixed socket path, the fixed playback parameters — audio
device, fullscreen, subtitle-track selection and no on-screen terminal,
but no keep-running-when-idle flag — and the requested media path as the
final positional argument; the spawn is recorded with exactly this argv. -/
theorem c7_argv_amended (media : String) (st : Ctrl) (w : World)
    (o : ChanOutcome) (b : Bool) (h : (stopImpl st w o).err = none) :
    buildCmd st.socketPath media
        = ("mpv" :: ("--input-ipc-server=" ++ st.socketPath) :: MPV_PARAMS) ++ [media]
    ∧ (buildCmd st.socketPath media).getLast? = some media
    ∧ "--fullscreen" ∈ MPV_PARAMS
    ∧ "--no-terminal" ∈ MPV_PARAMS
    ∧ "--sid 1" ∈ MPV_PARAMS
    ∧ IDLE_PARAM ∉ "mpv" :: ("--input-ipc-server=" ++ MPV_SOCKET) :: MPV_PARAMS
    ∧ (startImpl st w media o b).world.spawned
        = (w.nextPid, buildCmd st.socketPath media) :: w.spawned := by
  have hpres := stop_preserve st w o
  refine ⟨rfl, ?_, by decide, by decide, by decide, by decide, ?_⟩
  · show ((("mpv" :: ("--input-ipc-server=" ++ st.socketPath) :: MPV_PARAMS)
        ++ [media]).getLast? = some media)
    exact List.getLast?_concat _
  · rcases hstop : stopImpl st w o with ⟨st1, w1, e1⟩
    rw [hstop] at h hpres
    simp only at h hpres
    subst h
    unfold startImpl
    rw [hstop]
    cases b with
    | true => simp [hpres.1, hpres.2.1, hpres.2.2]
    | false => simp [hpres.1, hpres.2.1, hpres.2.2]

/-- Witness for the amended C7: a concrete start from a fresh controller
records the full fixed argv with the media last. -/
theorem c7_argv_amended_witness :
    buildCmd ctrl0.socketPath "/media/movie.mkv"
        = ("mpv" :: ("--input-ipc-server=" ++ ctrl0.socketPath) :: MPV_PARAMS)
            ++ ["/media/movie.mkv"]
    ∧ (buildCmd ctrl0.socketPath "/media/movie.mkv").getLast? = some "/media/movie.mkv"
    ∧ "--fullscreen" ∈ MPV_PARAMS
    ∧ "--no-terminal" ∈ MPV_PARAMS
    ∧ "--sid 1" ∈ MPV_PARAMS
    ∧ IDLE_PARAM ∉ "mpv" :: ("--input-ipc-server=" ++ MPV_SOCKET) :: MPV_PARAMS
    ∧ (startImpl ctrl0 world0 "/media/movie.mkv" (.reply none) true).world.spawned
        = (world0.nextPid, buildCmd ctrl0.socketPath "/media/movie.mkv") :: world0.spawned :=
  c7_argv_amended "/media/movie.mkv" ctrl0 world0 (.reply none) true rfl

end MediaServer
